import Mathlib

/-!
Verification of the FMTM front-end against its specification.

Shallow embedding of the relevant parts of the source:
- the create-project Redux slice and the SplitTasks wizard step
  (split-type selection, split geometry, QR-generation polling);
- the CreateProjectValidation form validator (including the stateful
  global-flag regex used for the project-name check);
- the project HTTP action layer (loading-flag dispatch traces);
- the SubmissionsTable pagination handler;
- the VectorLayer map adapter (draw/modify interaction registration).
-/

/-- GeoJSON objects pass through this layer uninterpreted; we model them as
their serialized form. -/
abbrev Geojson := String

/-- The task_split_type enum from types/enums (three splitting strategies). -/
inductive task_split_type
  | divide_on_square
  | choose_area_as_task
  | task_splitting_algorithm
deriving DecidableEq, Repr

/-- projectDetails record held in the create-project slice (the fields read by
the SplitTasks submission and the validators). -/
structure ProjectDetails where
  dimension : Nat
  no_of_buildings : Nat
  hashtags : String
  name : String
  short_description : String
  odk_central_url : String
  odk_central_user : String
  odk_central_password : String
  description : String
  organisation_id : Option Int
  per_task_instructions : String
  formCategorySelection : String
  formWays : String
  data_extract_url : String
  average_buildings_per_task : Nat
  dataExtractWays : String
deriving DecidableEq, Repr

/-- isTasksGenerated record of the create-project slice. -/
structure IsTasksGenerated where
  divide_on_square : Bool
  task_splitting_algorithm : Bool
deriving DecidableEq, Repr

/-- The part of the create-project slice state involved in split-type
selection and submission (CreateProjectSlice.ts). -/
structure CreateProjectState where
  projectDetails : ProjectDetails
  dividedTaskGeojson : Option Geojson
  drawnGeojson : Option Geojson
  splitTasksSelection : Option task_split_type
  isTasksGenerated : IsTasksGenerated
deriving DecidableEq, Repr

/-- Reducer SetSplitTasksSelection (CreateProjectSlice.ts line 195). -/
def SetSplitTasksSelection (payload : Option task_split_type) (s : CreateProjectState) :
    CreateProjectState :=
  { s with splitTasksSelection := payload }

/-- Reducer SetDividedTaskGeojson (CreateProjectSlice.ts line 143). -/
def SetDividedTaskGeojson (payload : Option Geojson) (s : CreateProjectState) :
    CreateProjectState :=
  { s with dividedTaskGeojson := payload }

/-- Reducer SetIsTasksGenerated (CreateProjectSlice.ts line 213): spreads the
payload key/value into the isTasksGenerated record.  The component only ever
dispatches the two known keys. -/
def SetIsTasksGenerated (key : String) (value : Bool) (s : CreateProjectState) :
    CreateProjectState :=
  if key = "divide_on_square" then
    { s with isTasksGenerated := { s.isTasksGenerated with divide_on_square := value } }
  else if key = "task_splitting_algorithm" then
    { s with isTasksGenerated := { s.isTasksGenerated with task_splitting_algorithm := value } }
  else s

/-- The RadioButton onChangeData handler of SplitTasks (part_000 lines
309-318): dispatches SetSplitTasksSelection and, for choose_area_as_task,
resets both isTasksGenerated flags. -/
def splitTasksRadioOnChange (value : task_split_type) (s : CreateProjectState) :
    CreateProjectState :=
  let s1 := SetSplitTasksSelection (some value) s
  if task_split_type.choose_area_as_task = value then
    SetIsTasksGenerated "task_splitting_algorithm" false
      (SetIsTasksGenerated "divide_on_square" false s1)
  else s1

/-- The SplitTasks effect with dependency [splitTasksSelection] (part_000
lines 141-145): when the selection is choose_area_as_task it dispatches
SetDividedTaskGeojson(null). -/
def splitTasksSelectionEffect (s : CreateProjectState) : CreateProjectState :=
  if s.splitTasksSelection = some task_split_type.choose_area_as_task then
    SetDividedTaskGeojson none s
  else s

/-- A user changing the split-type radio selection: the onChange handler runs,
and the [splitTasksSelection] effect re-runs exactly when the selection value
actually changed (React compares effect dependencies by value identity). -/
def changeSplitTasksSelection (value : task_split_type) (s : CreateProjectState) :
    CreateProjectState :=
  let s1 := splitTasksRadioOnChange value s
  if s1.splitTasksSelection ≠ s.splitTasksSelection then splitTasksSelectionEffect s1 else s1

/-- JavaScript a || b on nullable object values: null is falsy, any object is
truthy. -/
def jsOrOption {α : Type} (a b : Option α) : Option α :=
  match a with
  | some x => some x
  | none => b

/-- hashtags string processing in SplitTasks submission (part_000 lines
87-91): split on the hash sign, trim each part, drop empty strings. -/
def arrayHashtag (hashtags : String) : List String :=
  ((hashtags.splitOn "#").map String.trim).filter (· != "")

/-- project_info sub-record of the creation payload. -/
structure ProjectInfoPayload where
  name : String
  short_description : String
  description : String
  per_task_instructions : String
deriving DecidableEq, Repr

/-- The project POST payload assembled by SplitTasks submission (part_000
lines 93-119).  The two split-type-specific parameters are optional fields:
the source object carries whichever one the spread added. -/
structure ProjectData where
  project_info : ProjectInfoPayload
  outline_geojson : Option Geojson
  odk_central_url : String
  odk_central_user : String
  odk_central_password : String
  xform_category : String
  task_split_type : Option task_split_type
  form_ways : String
  hashtags : List String
  data_extract_url : String
  task_num_buildings : Option Nat
  task_split_dimension : Option Nat
deriving DecidableEq, Repr

/-- The submission function of SplitTasks (part_000 lines 93-119): builds the
base projectData object, then appends exactly one extra parameter depending on
the selected split type. -/
def submissionProjectData (projectDetails : ProjectDetails)
    (dividedTaskGeojson drawnGeojson : Option Geojson)
    (splitTasksSelection : Option task_split_type) : ProjectData :=
  let projectData : ProjectData :=
    { project_info :=
        { name := projectDetails.name
          short_description := projectDetails.short_description
          description := projectDetails.description
          per_task_instructions := projectDetails.per_task_instructions }
      outline_geojson := jsOrOption dividedTaskGeojson drawnGeojson
      odk_central_url := projectDetails.odk_central_url
      odk_central_user := projectDetails.odk_central_user
      odk_central_password := projectDetails.odk_central_password
      xform_category := projectDetails.formCategorySelection
      task_split_type := splitTasksSelection
      form_ways := projectDetails.formWays
      hashtags := arrayHashtag projectDetails.hashtags
      data_extract_url := projectDetails.data_extract_url
      task_num_buildings := none
      task_split_dimension := none }
  if splitTasksSelection = some task_split_type.task_splitting_algorithm then
    { projectData with task_num_buildings := some projectDetails.average_buildings_per_task }
  else
    { projectData with task_split_dimension := some projectDetails.dimension }

/-- handleChangePage of SubmissionsTable (SubmissionsTable.tsx lines 134-143):
ignores a requested zero-based page outside [0, pages-1], keeping the current
one-based paginationPage, otherwise moves to the requested page (one-based). -/
def handleChangePage (pages paginationPage newPage : Int) : Int :=
  if newPage + 1 > pages ∨ newPage + 1 < 1 then paginationPage else newPage + 1

/-- The Jump-to input (SubmissionsTable.tsx lines 459-470) passes the entered
one-based page minus one to handleChangePage. -/
def jumpToPage (pages paginationPage entered : Int) : Int :=
  handleChangePage pages paginationPage (entered - 1)

/-- The values object passed to CreateProjectValidation (part_001 lines
3-15). -/
structure ProjectValues where
  organisation_id : Option Int
  name : String
  username : String
  id : String
  short_description : String
  description : String
  hashtags : String
  odk_central_url : String
  odk_central_user : String
  odk_central_password : String
  defaultODKCredentials : Bool
deriving DecidableEq, Repr

/-- The field-keyed error object returned by CreateProjectValidation
(part_001 lines 16-27); a field is present exactly when it is some. -/
structure ValidationErrors where
  organisation_id : Option String := none
  name : Option String := none
  username : Option String := none
  id : Option String := none
  short_description : Option String := none
  description : Option String := none
  hashtags : Option String := none
  odk_central_url : Option String := none
  odk_central_user : Option String := none
  odk_central_password : Option String := none
deriving DecidableEq, Repr

/-- Whether the error object has at least one field set (Object.keys(errors)
length nonzero). -/
def ValidationErrors.hasErrors (e : ValidationErrors) : Bool :=
  e.organisation_id.isSome || e.name.isSome || e.username.isSome || e.id.isSome ||
    e.short_description.isSome || e.description.isSome || e.hashtags.isSome ||
    e.odk_central_url.isSome || e.odk_central_user.isSome || e.odk_central_password.isSome

/-- JavaScript truthiness of the organisation_id value (null and 0 are
falsy). -/
def jsTruthyId (o : Option Int) : Bool :=
  match o with
  | none => false
  | some n => n != 0

/-- One call of regexForSymbol.test on a string.  regexForSymbol is the
module-level global-flag regex /_/g of part_001 line 29; with the g flag,
test scans from the persistent lastIndex of the regex, advances it past a
match, and resets it to 0 on a miss. -/
def regexForSymbolTest (s : String) (lastIndex : Nat) : Bool × Nat :=
  match (s.toList.drop lastIndex).findIdx? (· = '_') with
  | some i => (true, lastIndex + i + 1)
  | none => (false, 0)

/-- CreateProjectValidation (part_001 lines 31-63).  isValidUrl lives in
utilfunctions/urlChecker outside the provided sources, so it is a parameter.
The regex state (lastIndex) is threaded explicitly: the source shares one
regex object across all invocations. -/
def CreateProjectValidation (isValidUrl : String → Bool) (values : ProjectValues)
    (lastIndex : Nat) : ValidationErrors × Nat :=
  let errors : ValidationErrors := {}
  let errors :=
    if !jsTruthyId values.organisation_id then
      { errors with organisation_id := some "Organization is Required." }
    else errors
  let errors :=
    if !values.defaultODKCredentials && values.odk_central_url == "" then
      { errors with odk_central_url := some "ODK URL is Required." }
    else errors
  let errors :=
    if !values.defaultODKCredentials && values.odk_central_url != "" &&
        !isValidUrl values.odk_central_url then
      { errors with odk_central_url := some "Invalid URL." }
    else errors
  let errors :=
    if !values.defaultODKCredentials && values.odk_central_user == "" then
      { errors with odk_central_user := some "ODK Central User is Required." }
    else errors
  let errors :=
    if !values.defaultODKCredentials && values.odk_central_password == "" then
      { errors with odk_central_password := some "ODK Central Password is Required." }
    else errors
  let errors :=
    if values.name == "" then
      { errors with name := some "Project Name is Required." }
    else errors
  let nameTested := values.name != ""
  let errors :=
    if nameTested && (regexForSymbolTest values.name lastIndex).1 then
      { errors with name := some "Project Name should not contain _ ." }
    else errors
  let lastIndex := if nameTested then (regexForSymbolTest values.name lastIndex).2 else lastIndex
  let errors :=
    if values.short_description == "" then
      { errors with short_description := some "Short Description is Required." }
    else errors
  let errors :=
    if values.description == "" then
      { errors with description := some "Description is Required." }
    else errors
  (errors, lastIndex)

/-- Outcome of submitting the project-details form. -/
structure SubmitOutcome where
  errors : ValidationErrors
  submissionRan : Bool
  navigated : Bool
deriving DecidableEq, Repr

/-- Modelled from the spec: the useForm hook (src/frontend/src/hooks/useForm,
not among the provided sources) backs handleSubmit in ProjectDetailsForm.tsx
lines 40-44; per the spec, submitting runs the validator and, when the
returned error object is non-empty, populates the field errors and blocks
the submission callback (which is what navigates to /upload-area). -/
def useFormHandleSubmit (isValidUrl : String → Bool) (values : ProjectValues)
    (lastIndex : Nat) : SubmitOutcome × Nat :=
  let result := CreateProjectValidation isValidUrl values lastIndex
  if result.1.hasErrors then
    ({ errors := result.1, submissionRan := false, navigated := false }, result.2)
  else
    ({ errors := result.1, submissionRan := true, navigated := true }, result.2)

/-- Loading-flag dispatch trace of DownloadProjectForm (Project.js lines
74-101).  The only dispatches this thunk makes are
SetDownloadProjectFormLoading actions; requestThrows means the awaited work
inside the try block throws before the trailing loading-false dispatch. -/
def DownloadProjectFormLoadingTrace (requestThrows : Bool) : List Bool :=
  [true] ++
    (if requestThrows then
      -- try aborted by the throw, catch dispatches loading false
      [false]
    else
      -- try runs to completion and dispatches loading false at its end
      [false]) ++
    -- the finally block dispatches loading false unconditionally
    [false]

/-- Loading-flag dispatch trace of DownloadDataExtract (Project.js lines
102-126); same try/catch/finally shape as DownloadProjectForm. -/
def DownloadDataExtractLoadingTrace (requestThrows : Bool) : List Bool :=
  [true] ++ (if requestThrows then [false] else [false]) ++ [false]

/-- Loading-flag dispatch trace of DownloadTile (Project.js lines 164-190);
the try block can also throw while reading the content-disposition header,
still before its trailing loading-false dispatch. -/
def DownloadTileLoadingTrace (requestThrows : Bool) : List Bool :=
  [true] ++ (if requestThrows then [false] else [false]) ++ [false]

/-- The actions the project HTTP layer (Project.js) can dispatch to the
store.  The Project slice defines no structured-error action; the
StructuredErrorState constructor exists to state its absence in every
trace. -/
inductive ProjectDispatch
  | SetProjectDetialsLoading (loading : Bool)
  | SetProjectTaskBoundries
  | SetProjectInfo
  | SetNewProjectTrigger
  | SetTilesListLoading (loading : Bool)
  | SetTilesList
  | SetGenerateProjectTilesLoading (loading : Bool)
  | SetProjectDashboardLoading (loading : Bool)
  | SetProjectDashboardDetail
  | StructuredErrorState
deriving DecidableEq, Repr

/-- Dispatch trace of ProjectById (Project.js lines 6-72).  The loading-true
dispatch is the first statement of the try block; on a throw in any of the
awaited requests the catch block runs, which contains only a commented-out
console.log, and the outer function still dispatches SetNewProjectTrigger. -/
def ProjectByIdTrace (requestThrows : Bool) : List ProjectDispatch :=
  (if requestThrows then
    [.SetProjectDetialsLoading true]
  else
    [.SetProjectDetialsLoading true, .SetProjectTaskBoundries, .SetProjectInfo,
      .SetProjectDetialsLoading false]) ++
    [.SetNewProjectTrigger]

/-- Dispatch trace of GetTilesList (Project.js lines 127-144). -/
def GetTilesListTrace (requestThrows : Bool) : List ProjectDispatch :=
  [.SetTilesListLoading true] ++
    (if requestThrows then [.SetTilesListLoading false]
     else [.SetTilesList, .SetTilesListLoading false]) ++
    [.SetTilesListLoading false]

/-- Dispatch trace of GenerateProjectTiles (Project.js lines 145-162),
restricted to its own actions: on success it additionally dispatches the
GetTilesList thunk, whose trace is modelled separately. -/
def GenerateProjectTilesTrace (requestThrows : Bool) : List ProjectDispatch :=
  [.SetGenerateProjectTilesLoading true] ++
    (if requestThrows then [.SetGenerateProjectTilesLoading false]
     else [.SetGenerateProjectTilesLoading false]) ++
    [.SetGenerateProjectTilesLoading false]

/-- Dispatch trace of GetProjectDashboard (Project.js lines 192-208); the
loading-true dispatch is inside the try block, before the awaited request. -/
def GetProjectDashboardTrace (requestThrows : Bool) : List ProjectDispatch :=
  [.SetProjectDashboardLoading true] ++
    (if requestThrows then [.SetProjectDashboardLoading false]
     else [.SetProjectDashboardDetail, .SetProjectDashboardLoading false]) ++
    [.SetProjectDashboardLoading false]

/-- The last value dispatched for a given loading flag in a trace, selected
by the projection f. -/
def lastLoadingDispatch (f : ProjectDispatch → Option Bool) (trace : List ProjectDispatch) :
    Option Bool :=
  (trace.filterMap f).getLast?

/-- Projection selecting SetProjectDetialsLoading dispatches. -/
def projectDetialsLoadingOf : ProjectDispatch → Option Bool
  | .SetProjectDetialsLoading b => some b
  | _ => none

/-- Projection selecting SetTilesListLoading dispatches. -/
def tilesListLoadingOf : ProjectDispatch → Option Bool
  | .SetTilesListLoading b => some b
  | _ => none

/-- Projection selecting SetGenerateProjectTilesLoading dispatches. -/
def generateProjectTilesLoadingOf : ProjectDispatch → Option Bool
  | .SetGenerateProjectTilesLoading b => some b
  | _ => none

/-- Projection selecting SetProjectDashboardLoading dispatches. -/
def projectDashboardLoadingOf : ProjectDispatch → Option Bool
  | .SetProjectDashboardLoading b => some b
  | _ => none

/-- Props of a mounted VectorLayer instance that govern interaction
registration (TaskSubmissionsMap.tsx lines 339-360): whether the map
instance, the created layer, and the onModify/onDraw callbacks are
present (non-null). -/
structure VectorLayerProps where
  map : Bool
  vectorLayer : Bool
  onModify : Bool
  onDraw : Bool
deriving DecidableEq, Repr

/-- Map interactions the VectorLayer effects can register. -/
inductive Interaction
  | modify
  | select
  | draw
deriving DecidableEq, Repr

/-- Interactions registered by the Modify Feature effect
(TaskSubmissionsMap.tsx lines 364-396): guarded on map, vectorLayer and
onModify, it adds a Modify and a Select interaction. -/
def modifyEffectInteractions (p : VectorLayerProps) : List Interaction :=
  if !p.map then []
  else if !p.vectorLayer then []
  else if !p.onModify then []
  else [.modify, .select]

/-- Interactions registered by the Draw Feature effect
(TaskSubmissionsMap.tsx lines 409-447): guarded on map and onDraw only
(the vectorLayer guard is commented out), it adds a Draw interaction. -/
def drawEffectInteractions (p : VectorLayerProps) : List Interaction :=
  if !p.map then []
  else if !p.onDraw then []
  else [.draw]

/-- All interactions a mounted VectorLayer instance keeps registered with the
map for a given combination of props. -/
def registeredInteractions (p : VectorLayerProps) : List Interaction :=
  modifyEffectInteractions p ++ drawEffectInteractions p

/-- The mutual-exclusion contract claimed for draw/modify: never both
registered, whatever the props. -/
def drawModifyMutuallyExclusive : Prop :=
  ∀ p : VectorLayerProps,
    ¬ (Interaction.modify ∈ registeredInteractions p ∧
       Interaction.draw ∈ registeredInteractions p)

/-- A browser interval timer: its id and its fixed delay in milliseconds. -/
structure IntervalTimer where
  id : Nat
  delay : Nat
deriving DecidableEq, Repr

/-- State of the SplitTasks QR-generation polling machinery (part_000 lines
34 and 186-248): the module-level generateProjectLogIntervalCb handle, the
set of live browser interval timers, the store fields the effects read
(generateQrSuccess, generateProjectLog status), whether the component is
mounted, a count of clearInterval invocations, and bookkeeping of
GenerateProjectLog requests in flight and responses already applied. -/
structure SplitTasksPollState where
  generateProjectLogIntervalCb : Option Nat
  timers : List IntervalTimer
  nextTimerId : Nat
  generateQrSuccess : Bool
  generateProjectLogStatus : Option String
  mounted : Bool
  clearIntervalCalls : Nat
  pendingRequests : Nat
  appliedLogResponses : Nat
deriving DecidableEq, Repr

/-- clearInterval(generateProjectLogIntervalCb): a no-op on a null handle,
otherwise it cancels the timer with that id; the handle itself is left
unchanged by clearInterval. -/
def clearIntervalCb (s : SplitTasksPollState) : SplitTasksPollState :=
  { s with
    timers :=
      match s.generateProjectLogIntervalCb with
      | none => s.timers
      | some i => s.timers.filter (fun t => t.id != i)
    clearIntervalCalls := s.clearIntervalCalls + 1 }

/-- The SplitTasks effect with dependencies [generateQrSuccess] (part_000
lines 187-199): when generateQrSuccess is set and the module-level handle is
null, it dispatches one immediate GenerateProjectLog request. -/
def generateQrSuccessEffect (s : SplitTasksPollState) : SplitTasksPollState :=
  if s.generateQrSuccess ∧ s.generateProjectLogIntervalCb = none then
    { s with pendingRequests := s.pendingRequests + 1 }
  else s

/-- The SplitTasks effect with dependencies [generateQrSuccess,
generateProjectLog] (part_000 lines 200-240).  FAILED: clearInterval and
show a snackbar.  SUCCESS: clearInterval, null out the log and the QR
success marker, navigate away and clear the form.  PENDING: when the
module-level handle is still null, start a 5000 ms setInterval that
dispatches GenerateProjectLog on every tick. -/
def generateProjectLogEffect (s : SplitTasksPollState) : SplitTasksPollState :=
  let s1 :=
    if s.generateQrSuccess ∧ s.generateProjectLogStatus = some "FAILED" then
      clearIntervalCb s
    else if s.generateQrSuccess ∧ s.generateProjectLogStatus = some "SUCCESS" then
      let s2 := clearIntervalCb s
      { s2 with generateProjectLogStatus := none, generateQrSuccess := false }
    else s
  if s.generateQrSuccess ∧ s.generateProjectLogStatus = some "PENDING" ∧
      s1.generateProjectLogIntervalCb = none then
    { s1 with
      generateProjectLogIntervalCb := some s1.nextTimerId
      timers := s1.timers ++ [⟨s1.nextTimerId, 5000⟩]
      nextTimerId := s1.nextTimerId + 1 }
  else s1

/-- Events driving the polling machinery: the QR-generation success marker
being set, a GenerateProjectLog response arriving with a status, a tick of
the live interval timer (dispatching one more request), and component
unmount. -/
inductive PollEvent
  | qrSet
  | logResponse (status : String)
  | intervalTick
  | unmount
deriving DecidableEq, Repr

/-- The store after GenerateProjectQRSuccess delivers a task id: the effects
see generateQrSuccess as set. -/
def qrSetState (s : SplitTasksPollState) : SplitTasksPollState :=
  { s with generateQrSuccess := true }

/-- The store after a GenerateProjectLog response is dispatched: the log
status is replaced, one in-flight request is consumed. -/
def logUpdateState (s : SplitTasksPollState) (status : String) : SplitTasksPollState :=
  { s with
    generateProjectLogStatus := some status
    pendingRequests := s.pendingRequests - 1
    appliedLogResponses := s.appliedLogResponses + 1 }

/-- The unmount cleanup of SplitTasks (part_000 lines 242-248): clearInterval
on the handle, null the module-level handle, null the stored log. -/
def unmountCleanup (s : SplitTasksPollState) : SplitTasksPollState :=
  let s1 := clearIntervalCb s
  { s1 with
    generateProjectLogIntervalCb := none
    generateProjectLogStatus := none
    mounted := false }

/-- One step of the polling machinery.  Effects only run while the component
is mounted; a log response needs a request in flight; the effects re-run in
declaration order when their dependencies change. -/
def pollStep (s : SplitTasksPollState) (e : PollEvent) : SplitTasksPollState :=
  if s.mounted then
    match e with
    | .qrSet => generateProjectLogEffect (generateQrSuccessEffect (qrSetState s))
    | .logResponse status =>
        if s.pendingRequests = 0 then s
        else generateProjectLogEffect (logUpdateState s status)
    | .intervalTick =>
        if s.timers = [] then s else { s with pendingRequests := s.pendingRequests + 1 }
    | .unmount => unmountCleanup s
  else s

/-- The state on first mount of SplitTasks: the module-level handle is null,
no timers, no QR success yet, no log. -/
def pollInit : SplitTasksPollState :=
  { generateProjectLogIntervalCb := none
    timers := []
    nextTimerId := 0
    generateQrSuccess := false
    generateProjectLogStatus := none
    mounted := true
    clearIntervalCalls := 0
    pendingRequests := 0
    appliedLogResponses := 0 }

/-- Run a list of events from a state. -/
def pollRun (s : SplitTasksPollState) (evs : List PollEvent) : SplitTasksPollState :=
  evs.foldl pollStep s

/-- A terminal QR-generation log status. -/
def isTerminalStatus (status : String) : Prop :=
  status = "SUCCESS" ∨ status = "FAILED"

/-- Timer-handle coherence: the live timers are exactly what the
module-level handle tracks - no timer without a handle, and at most the one
5000 ms timer the handle designates. -/
def GoodTimers (s : SplitTasksPollState) : Prop :=
  match s.generateProjectLogIntervalCb with
  | none => s.timers = []
  | some i => s.timers = [] ∨ s.timers = [⟨i, 5000⟩]

/-- Number of qrSet events in a trace. -/
def countQrSet (evs : List PollEvent) : Nat :=
  evs.count PollEvent.qrSet

/-- The initial projectDetails record of the create-project slice
(CreateProjectSlice.ts lines 7-19); the wizard-step fields not present in the
initial record start undefined and are modelled as empty/zero. -/
def initialProjectDetails : ProjectDetails :=
  { dimension := 10
    no_of_buildings := 5
    hashtags := ""
    name := ""
    short_description := ""
    odk_central_url := ""
    odk_central_user := ""
    odk_central_password := ""
    description := ""
    organisation_id := none
    per_task_instructions := ""
    formCategorySelection := ""
    formWays := ""
    data_extract_url := ""
    average_buildings_per_task := 0
    dataExtractWays := "" }

/-- The initial create-project slice state (CreateProjectSlice.ts lines
4-55), restricted to the modelled fields. -/
def initialCreateProjectState : CreateProjectState :=
  { projectDetails := initialProjectDetails
    dividedTaskGeojson := none
    drawnGeojson := none
    splitTasksSelection := none
    isTasksGenerated := { divide_on_square := false, task_splitting_algorithm := false } }

/-- A values object whose name contains an underscore while every other
validated field is present and valid (default ODK credentials in use). -/
def underscoreNameValues : ProjectValues :=
  { organisation_id := some 1
    name := "a_b"
    username := ""
    id := ""
    short_description := "short"
    description := "long"
    hashtags := ""
    odk_central_url := ""
    odk_central_user := ""
    odk_central_password := ""
    defaultODKCredentials := true }

/-- A values object with every validated field missing and default ODK
credentials off. -/
def emptyProjectValues : ProjectValues :=
  { organisation_id := none
    name := ""
    username := ""
    id := ""
    short_description := ""
    description := ""
    hashtags := ""
    odk_central_url := ""
    odk_central_user := ""
    odk_central_password := ""
    defaultODKCredentials := false }

/-- Contribution of one event to the number of qrSet events of a trace. -/
def qrSetContribution (e : PollEvent) : Nat :=
  if e = PollEvent.qrSet then 1 else 0

/-- Quiescence of the polling machinery: no live timer, and (while mounted
with a null handle) no request in flight that could restart one. -/
def PollQuiet (s : SplitTasksPollState) : Prop :=
  s.timers = [] ∧
    (s.mounted = true → s.generateProjectLogIntervalCb = none → s.pendingRequests = 0)

theorem SetIsTasksGenerated_splitTasksSelection (key : String) (value : Bool)
    (s : CreateProjectState) :
    (SetIsTasksGenerated key value s).splitTasksSelection = s.splitTasksSelection := by
  unfold SetIsTasksGenerated
  split
  · rfl
  · split <;> rfl

/-- C2: for every store state, a genuine change of the split-type selection to
choose_area_as_task re-runs the [splitTasksSelection] effect, which clears
dividedTaskGeojson to null. -/
theorem chooseAreaAsTask_clears_dividedTaskGeojson (s : CreateProjectState)
    (h : s.splitTasksSelection ≠ some task_split_type.choose_area_as_task) :
    (changeSplitTasksSelection task_split_type.choose_area_as_task s).dividedTaskGeojson =
      none := by
  unfold changeSplitTasksSelection
  have hsel : (splitTasksRadioOnChange task_split_type.choose_area_as_task s).splitTasksSelection
      = some task_split_type.choose_area_as_task := by
    unfold splitTasksRadioOnChange
    rw [if_pos rfl, SetIsTasksGenerated_splitTasksSelection,
      SetIsTasksGenerated_splitTasksSelection]
    rfl
  rw [if_pos]
  · unfold splitTasksSelectionEffect
    rw [if_pos hsel]
    rfl
  · rw [hsel]
    exact fun he => h he.symm

/-- C2 witness: from the initial store state (no selection yet), selecting
choose_area_as_task leaves dividedTaskGeojson null. -/
theorem chooseAreaAsTask_clears_dividedTaskGeojson_witness :
    initialCreateProjectState.splitTasksSelection ≠ some task_split_type.choose_area_as_task ∧
      (changeSplitTasksSelection task_split_type.choose_area_as_task
        initialCreateProjectState).dividedTaskGeojson = none :=
  ⟨by decide, chooseAreaAsTask_clears_dividedTaskGeojson initialCreateProjectState (by decide)⟩

/-- C5: the Jump-to input changes the pagination page exactly when the entered
page lies within 1..pages; any out-of-range request keeps the current page. -/
theorem jumpToPage_clamps (pages paginationPage entered : Int) :
    (1 ≤ entered → entered ≤ pages → jumpToPage pages paginationPage entered = entered) ∧
      (entered < 1 ∨ pages < entered → jumpToPage pages paginationPage entered =
        paginationPage) := by
  unfold jumpToPage handleChangePage
  constructor
  · intro h1 h2
    rw [if_neg]
    · omega
    · omega
  · intro h
    rw [if_pos]
    omega

/-- C5 witness: entering page 2 of 5 moves to page 2; entering page 7 of 5 and
page 0 of 5 keep the current page 1. -/
theorem jumpToPage_clamps_witness :
    jumpToPage 5 1 2 = 2 ∧ jumpToPage 5 1 7 = 1 ∧ jumpToPage 5 1 0 = 1 :=
  ⟨(jumpToPage_clamps 5 1 2).1 (by decide) (by decide),
    (jumpToPage_clamps 5 1 7).2 (Or.inr (by decide)),
    (jumpToPage_clamps 5 1 0).2 (Or.inl (by decide))⟩

/-- C7: the creation payload always carries the project metadata, uses
dividedTaskGeojson as outline_geojson with drawnGeojson as the fallback
(JavaScript ||), and carries exactly one split-type-specific parameter:
task_num_buildings for task_splitting_algorithm, task_split_dimension for
every other selection. -/
theorem submissionProjectData_shape (projectDetails : ProjectDetails)
    (dividedTaskGeojson drawnGeojson : Option Geojson)
    (splitTasksSelection : Option task_split_type) :
    (submissionProjectData projectDetails dividedTaskGeojson drawnGeojson
        splitTasksSelection).project_info =
      { name := projectDetails.name
        short_description := projectDetails.short_description
        description := projectDetails.description
        per_task_instructions := projectDetails.per_task_instructions } ∧
    (submissionProjectData projectDetails dividedTaskGeojson drawnGeojson
        splitTasksSelection).odk_central_url = projectDetails.odk_central_url ∧
    (submissionProjectData projectDetails dividedTaskGeojson drawnGeojson
        splitTasksSelection).odk_central_user = projectDetails.odk_central_user ∧
    (submissionProjectData projectDetails dividedTaskGeojson drawnGeojson
        splitTasksSelection).odk_central_password = projectDetails.odk_central_password ∧
    (submissionProjectData projectDetails dividedTaskGeojson drawnGeojson
        splitTasksSelection).xform_category = projectDetails.formCategorySelection ∧
    (submissionProjectData projectDetails dividedTaskGeojson drawnGeojson
        splitTasksSelection).task_split_type = splitTasksSelection ∧
    (submissionProjectData projectDetails dividedTaskGeojson drawnGeojson
        splitTasksSelection).form_ways = projectDetails.formWays ∧
    (submissionProjectData projectDetails dividedTaskGeojson drawnGeojson
        splitTasksSelection).hashtags = arrayHashtag projectDetails.hashtags ∧
    (submissionProjectData projectDetails dividedTaskGeojson drawnGeojson
        splitTasksSelection).data_extract_url = projectDetails.data_extract_url ∧
    (submissionProjectData projectDetails dividedTaskGeojson drawnGeojson
        splitTasksSelection).outline_geojson = jsOrOption dividedTaskGeojson drawnGeojson ∧
    (submissionProjectData projectDetails dividedTaskGeojson drawnGeojson
        splitTasksSelection).task_num_buildings =
      (if splitTasksSelection = some task_split_type.task_splitting_algorithm then
        some projectDetails.average_buildings_per_task
      else none) ∧
    (submissionProjectData projectDetails dividedTaskGeojson drawnGeojson
        splitTasksSelection).task_split_dimension =
      (if splitTasksSelection = some task_split_type.task_splitting_algorithm then none
      else some projectDetails.dimension) ∧
    ((submissionProjectData projectDetails dividedTaskGeojson drawnGeojson
        splitTasksSelection).task_num_buildings.isSome
      && (submissionProjectData projectDetails dividedTaskGeojson drawnGeojson
        splitTasksSelection).task_split_dimension.isSome) = false ∧
    ((submissionProjectData projectDetails dividedTaskGeojson drawnGeojson
        splitTasksSelection).task_num_buildings.isSome
      || (submissionProjectData projectDetails dividedTaskGeojson drawnGeojson
        splitTasksSelection).task_split_dimension.isSome) = true := by
  unfold submissionProjectData
  by_cases hsel : splitTasksSelection = some task_split_type.task_splitting_algorithm <;>
    simp [hsel]

/-- C4 counterexample: on a successful DownloadProjectForm call the
loading-flag dispatch trace is true, false, false - the flag is set to false
twice (once at the end of the try block facing the catch, once more in the
finally block), not exactly once. -/
theorem downloadProjectForm_double_false :
    DownloadProjectFormLoadingTrace false = [true, false, false] ∧
      (DownloadProjectFormLoadingTrace false).count false = 2 := by decide

/-- C4 (amended): every download action dispatches loading true exactly once,
first, and then loading false exactly twice (try-or-catch plus finally),
whether or not the request throws; the flag therefore ends at false. -/
theorem downloadActions_loading_sequence (requestThrows : Bool) :
    (DownloadProjectFormLoadingTrace requestThrows).head? = some true ∧
    (DownloadProjectFormLoadingTrace requestThrows).count true = 1 ∧
    (DownloadProjectFormLoadingTrace requestThrows).count false = 2 ∧
    (DownloadProjectFormLoadingTrace requestThrows).getLast? = some false ∧
    (DownloadDataExtractLoadingTrace requestThrows).head? = some true ∧
    (DownloadDataExtractLoadingTrace requestThrows).count true = 1 ∧
    (DownloadDataExtractLoadingTrace requestThrows).count false = 2 ∧
    (DownloadDataExtractLoadingTrace requestThrows).getLast? = some false ∧
    (DownloadTileLoadingTrace requestThrows).head? = some true ∧
    (DownloadTileLoadingTrace requestThrows).count true = 1 ∧
    (DownloadTileLoadingTrace requestThrows).count false = 2 ∧
    (DownloadTileLoadingTrace requestThrows).getLast? = some false := by
  cases requestThrows <;> decide

/-- C8 counterexample: when the request inside ProjectById throws, the whole
dispatch trace is loading-true followed by SetNewProjectTrigger - the empty
catch block never resets projectDetailsLoading, so its last dispatched value
is true. -/
theorem projectById_error_leaves_loading_true :
    ProjectByIdTrace true =
      [ProjectDispatch.SetProjectDetialsLoading true, ProjectDispatch.SetNewProjectTrigger] ∧
      lastLoadingDispatch projectDetialsLoadingOf (ProjectByIdTrace true) = some true := by
  decide

/-- C8 (amended): on a throwing request, GetTilesList, GenerateProjectTiles,
GetProjectDashboard and the download actions catch the error and reset their
loading flag to false, while ProjectById catches and discards the error
without resetting projectDetailsLoading; none of the handlers ever dispatches
a structured error state. -/
theorem projectApi_error_handling (requestThrows : Bool) :
    lastLoadingDispatch tilesListLoadingOf (GetTilesListTrace true) = some false ∧
    lastLoadingDispatch generateProjectTilesLoadingOf (GenerateProjectTilesTrace true) =
      some false ∧
    lastLoadingDispatch projectDashboardLoadingOf (GetProjectDashboardTrace true) =
      some false ∧
    (DownloadProjectFormLoadingTrace true).getLast? = some false ∧
    (DownloadDataExtractLoadingTrace true).getLast? = some false ∧
    (DownloadTileLoadingTrace true).getLast? = some false ∧
    lastLoadingDispatch projectDetialsLoadingOf (ProjectByIdTrace true) = some true ∧
    (ProjectByIdTrace requestThrows).count ProjectDispatch.StructuredErrorState = 0 ∧
    (GetTilesListTrace requestThrows).count ProjectDispatch.StructuredErrorState = 0 ∧
    (GenerateProjectTilesTrace requestThrows).count ProjectDispatch.StructuredErrorState = 0 ∧
    (GetProjectDashboardTrace requestThrows).count ProjectDispatch.StructuredErrorState = 0 := by
  cases requestThrows <;> decide

/-- C9 counterexample: with the map, the layer and both callbacks present, the
two independent effects register both the Modify (plus Select) and the Draw
interaction at the same time, so draw and modify are not mutually exclusive. -/
theorem vectorLayer_both_interactions_registered :
    registeredInteractions ⟨true, true, true, true⟩ =
      [Interaction.modify, Interaction.select, Interaction.draw] ∧
      Interaction.modify ∈ registeredInteractions ⟨true, true, true, true⟩ ∧
      Interaction.draw ∈ registeredInteractions ⟨true, true, true, true⟩ := by decide

/-- C9 (amended): the modify interaction is registered exactly when the map,
the vector layer and onModify are present, the draw interaction exactly when
the map and onDraw are present; draw and modify are mutually exclusive
whenever at most one of the onModify/onDraw callbacks is provided (which is
how every in-repo usage mounts the layer), but not in general. -/
theorem vectorLayer_interaction_registration (p : VectorLayerProps) :
    (Interaction.modify ∈ registeredInteractions p ↔
      p.map = true ∧ p.vectorLayer = true ∧ p.onModify = true) ∧
    (Interaction.draw ∈ registeredInteractions p ↔ p.map = true ∧ p.onDraw = true) ∧
    ((p.onModify = false ∨ p.onDraw = false) →
      ¬(Interaction.modify ∈ registeredInteractions p ∧
        Interaction.draw ∈ registeredInteractions p)) := by
  obtain ⟨m, v, om, od⟩ := p
  cases m <;> cases v <;> cases om <;> cases od <;> decide

/-- C9 witness: with onDraw absent, modify can be registered but draw and
modify are never simultaneously registered. -/
theorem vectorLayer_interaction_registration_witness :
    (VectorLayerProps.mk true true true false).onDraw = false ∧
      ¬(Interaction.modify ∈ registeredInteractions ⟨true, true, true, false⟩ ∧
        Interaction.draw ∈ registeredInteractions ⟨true, true, true, false⟩) :=
  ⟨rfl, (vectorLayer_interaction_registration ⟨true, true, true, false⟩).2.2 (Or.inr rfl)⟩

/-- C10 (code bug): CreateProjectValidation tests the project name against the
module-level global-flag regex /_/g, whose lastIndex persists between calls;
the first validation of the name a_b flags the underscore and leaves
lastIndex at 2, and the immediately following validation of the same values
object finds no match from position 2 and returns no name error, contradicting
the intended (and claimed) unconditional rejection of names containing an
underscore. -/
theorem createProjectValidation_regex_state_bug :
    (CreateProjectValidation (fun _ => true) underscoreNameValues 0).1.name =
      some "Project Name should not contain _ ." ∧
    (CreateProjectValidation (fun _ => true) underscoreNameValues 0).2 = 2 ∧
    (CreateProjectValidation (fun _ => true) underscoreNameValues
        (CreateProjectValidation (fun _ => true) underscoreNameValues 0).2).1.name = none ∧
    (CreateProjectValidation (fun _ => true) underscoreNameValues
        (CreateProjectValidation (fun _ => true) underscoreNameValues 0).2).1.hasErrors =
      false := by
  decide

/-- C3: missing organisation and, without default ODK credentials, missing ODK
URL, user or password each produce their field error, and any non-empty error
object blocks the submission callback and hence the navigation. -/
theorem createProjectValidation_required_fields (isValidUrl : String → Bool)
    (values : ProjectValues) (lastIndex : Nat) :
    (jsTruthyId values.organisation_id = false →
      (CreateProjectValidation isValidUrl values lastIndex).1.organisation_id =
        some "Organization is Required.") ∧
    (values.defaultODKCredentials = false → values.odk_central_url = "" →
      (CreateProjectValidation isValidUrl values lastIndex).1.odk_central_url =
        some "ODK URL is Required.") ∧
    (values.defaultODKCredentials = false → values.odk_central_user = "" →
      (CreateProjectValidation isValidUrl values lastIndex).1.odk_central_user =
        some "ODK Central User is Required.") ∧
    (values.defaultODKCredentials = false → values.odk_central_password = "" →
      (CreateProjectValidation isValidUrl values lastIndex).1.odk_central_password =
        some "ODK Central Password is Required.") ∧
    ((CreateProjectValidation isValidUrl values lastIndex).1.hasErrors = true →
      (useFormHandleSubmit isValidUrl values lastIndex).1.submissionRan = false ∧
        (useFormHandleSubmit isValidUrl values lastIndex).1.navigated = false) := by
  refine ⟨fun h => ?_, fun hd hu => ?_, fun hd hu => ?_, fun hd hp => ?_, fun he => ?_⟩
  · simp [CreateProjectValidation, h, apply_ite ValidationErrors.organisation_id]
  · simp [CreateProjectValidation, hd, hu, apply_ite ValidationErrors.odk_central_url]
  · simp [CreateProjectValidation, hd, hu, apply_ite ValidationErrors.odk_central_user]
  · simp [CreateProjectValidation, hd, hp, apply_ite ValidationErrors.odk_central_password]
  · unfold useFormHandleSubmit
    rw [if_pos he]
    exact ⟨rfl, rfl⟩

/-- C3 witness: submitting the empty values object (no organisation, default
credentials off, no ODK URL, user or password) yields all four field errors
and a blocked submission with no navigation. -/
theorem createProjectValidation_required_fields_witness :
    (CreateProjectValidation (fun _ => false) emptyProjectValues 0).1.organisation_id =
        some "Organization is Required." ∧
      (CreateProjectValidation (fun _ => false) emptyProjectValues 0).1.odk_central_url =
        some "ODK URL is Required." ∧
      (CreateProjectValidation (fun _ => false) emptyProjectValues 0).1.odk_central_user =
        some "ODK Central User is Required." ∧
      (CreateProjectValidation (fun _ => false) emptyProjectValues 0).1.odk_central_password =
        some "ODK Central Password is Required." ∧
      (useFormHandleSubmit (fun _ => false) emptyProjectValues 0).1.submissionRan = false ∧
      (useFormHandleSubmit (fun _ => false) emptyProjectValues 0).1.navigated = false :=
  have h := createProjectValidation_required_fields (fun _ => false) emptyProjectValues 0
  ⟨h.1 (by decide), h.2.1 rfl rfl, h.2.2.1 rfl rfl, h.2.2.2.1 rfl rfl,
    (h.2.2.2.2 (by decide)).1, (h.2.2.2.2 (by decide)).2⟩

theorem clearIntervalCb_cb (s : SplitTasksPollState) :
    (clearIntervalCb s).generateProjectLogIntervalCb = s.generateProjectLogIntervalCb := rfl

theorem clearIntervalCb_mounted (s : SplitTasksPollState) :
    (clearIntervalCb s).mounted = s.mounted := rfl

theorem clearIntervalCb_timers_of_goodTimers (s : SplitTasksPollState) (h : GoodTimers s) :
    (clearIntervalCb s).timers = [] := by
  unfold GoodTimers at h
  unfold clearIntervalCb
  cases hc : s.generateProjectLogIntervalCb with
  | none => simp only [hc] at h ⊢; exact h
  | some i =>
      simp only [hc] at h ⊢
      rcases h with h | h <;> simp [h]

theorem goodTimers_clearIntervalCb (s : SplitTasksPollState) (h : GoodTimers s) :
    GoodTimers (clearIntervalCb s) := by
  have ht := clearIntervalCb_timers_of_goodTimers s h
  unfold GoodTimers
  rw [clearIntervalCb_cb]
  cases s.generateProjectLogIntervalCb with
  | none => exact ht
  | some i => exact Or.inl ht

theorem generateQrSuccessEffect_cb (s : SplitTasksPollState) :
    (generateQrSuccessEffect s).generateProjectLogIntervalCb =
      s.generateProjectLogIntervalCb := by
  unfold generateQrSuccessEffect
  split <;> rfl

theorem generateQrSuccessEffect_timers (s : SplitTasksPollState) :
    (generateQrSuccessEffect s).timers = s.timers := by
  unfold generateQrSuccessEffect
  split <;> rfl

theorem generateQrSuccessEffect_mounted (s : SplitTasksPollState) :
    (generateQrSuccessEffect s).mounted = s.mounted := by
  unfold generateQrSuccessEffect
  split <;> rfl

theorem generateQrSuccessEffect_applied (s : SplitTasksPollState) :
    (generateQrSuccessEffect s).appliedLogResponses = s.appliedLogResponses := by
  unfold generateQrSuccessEffect
  split <;> rfl

theorem generateQrSuccessEffect_pending_le (s : SplitTasksPollState) :
    (generateQrSuccessEffect s).pendingRequests ≤ s.pendingRequests + 1 := by
  unfold generateQrSuccessEffect
  split
  · exact Nat.le_refl _
  · exact Nat.le_succ _

theorem generateProjectLogEffect_mounted (s : SplitTasksPollState) :
    (generateProjectLogEffect s).mounted = s.mounted := by
  unfold generateProjectLogEffect clearIntervalCb
  dsimp only
  repeat' split
  all_goals rfl

theorem generateProjectLogEffect_cb_some (s : SplitTasksPollState) (i : Nat)
    (hc : s.generateProjectLogIntervalCb = some i) :
    (generateProjectLogEffect s).generateProjectLogIntervalCb = some i := by
  unfold generateProjectLogEffect clearIntervalCb
  dsimp only
  repeat' split
  all_goals simp_all

theorem generateProjectLogEffect_dichotomy (s : SplitTasksPollState)
    (hc : s.generateProjectLogIntervalCb = none) :
    ((generateProjectLogEffect s).generateProjectLogIntervalCb = none ∧
      (generateProjectLogEffect s).timers = s.timers ∧
      (generateProjectLogEffect s).pendingRequests = s.pendingRequests ∧
      (generateProjectLogEffect s).appliedLogResponses = s.appliedLogResponses) ∨
    (generateProjectLogEffect s).generateProjectLogIntervalCb = some s.nextTimerId := by
  unfold generateProjectLogEffect clearIntervalCb
  dsimp only
  repeat' split
  all_goals simp_all

theorem generateProjectLogEffect_timers_nil (s : SplitTasksPollState) (ht : s.timers = [])
    (hc : s.generateProjectLogIntervalCb ≠ none) :
    (generateProjectLogEffect s).timers = [] := by
  unfold generateProjectLogEffect clearIntervalCb
  dsimp only
  repeat' split
  all_goals simp_all

theorem goodTimers_generateProjectLogEffect (s : SplitTasksPollState) (h : GoodTimers s) :
    GoodTimers (generateProjectLogEffect s) := by
  unfold GoodTimers at h ⊢
  unfold generateProjectLogEffect clearIntervalCb
  dsimp only
  repeat' split
  all_goals simp_all
  all_goals (rcases h with h | h <;> simp [h])

theorem goodTimers_generateQrSuccessEffect (s : SplitTasksPollState) (h : GoodTimers s) :
    GoodTimers (generateQrSuccessEffect s) := by
  unfold generateQrSuccessEffect
  split
  · exact h
  · exact h

theorem goodTimers_pollStep (s : SplitTasksPollState) (e : PollEvent) (h : GoodTimers s) :
    GoodTimers (pollStep s e) := by
  unfold pollStep
  split
  · cases e with
    | qrSet =>
        exact goodTimers_generateProjectLogEffect _ (goodTimers_generateQrSuccessEffect _ h)
    | logResponse status =>
        dsimp only
        split
        · exact h
        · exact goodTimers_generateProjectLogEffect _ h
    | intervalTick =>
        dsimp only
        split
        · exact h
        · exact h
    | unmount =>
        have ht := clearIntervalCb_timers_of_goodTimers s h
        unfold GoodTimers
        dsimp only
        exact ht
  · exact h

theorem goodTimers_pollInit : GoodTimers pollInit := rfl

theorem goodTimers_pollRun (evs : List PollEvent) (s : SplitTasksPollState)
    (h : GoodTimers s) : GoodTimers (pollRun s evs) := by
  induction evs generalizing s with
  | nil => exact h
  | cons e evs ih => exact ih _ (goodTimers_pollStep s e h)


theorem qrSetState_cb (s : SplitTasksPollState) :
    (qrSetState s).generateProjectLogIntervalCb = s.generateProjectLogIntervalCb := rfl

theorem qrSetState_timers (s : SplitTasksPollState) : (qrSetState s).timers = s.timers := rfl

theorem qrSetState_pending (s : SplitTasksPollState) :
    (qrSetState s).pendingRequests = s.pendingRequests := rfl

theorem qrSetState_applied (s : SplitTasksPollState) :
    (qrSetState s).appliedLogResponses = s.appliedLogResponses := rfl

theorem logUpdateState_cb (s : SplitTasksPollState) (status : String) :
    (logUpdateState s status).generateProjectLogIntervalCb =
      s.generateProjectLogIntervalCb := rfl

theorem logUpdateState_timers (s : SplitTasksPollState) (status : String) :
    (logUpdateState s status).timers = s.timers := rfl

theorem logUpdateState_pending (s : SplitTasksPollState) (status : String) :
    (logUpdateState s status).pendingRequests = s.pendingRequests - 1 := rfl

theorem logUpdateState_applied (s : SplitTasksPollState) (status : String) :
    (logUpdateState s status).appliedLogResponses = s.appliedLogResponses + 1 := rfl

theorem unmountCleanup_cb (s : SplitTasksPollState) :
    (unmountCleanup s).generateProjectLogIntervalCb = none := rfl

theorem unmountCleanup_mounted (s : SplitTasksPollState) :
    (unmountCleanup s).mounted = false := rfl

theorem unmountCleanup_timers (s : SplitTasksPollState) :
    (unmountCleanup s).timers = (clearIntervalCb s).timers := rfl

theorem pollStep_request_bound (s : SplitTasksPollState) (e : PollEvent) (n : Nat)
    (h : s.mounted = true → s.generateProjectLogIntervalCb = none →
      s.timers = [] ∧ s.pendingRequests + s.appliedLogResponses ≤ n) :
    (pollStep s e).mounted = true → (pollStep s e).generateProjectLogIntervalCb = none →
      (pollStep s e).timers = [] ∧
      (pollStep s e).pendingRequests + (pollStep s e).appliedLogResponses ≤
        n + qrSetContribution e := by
  unfold pollStep
  split
  case isFalse =>
    intro hm hc
    obtain ⟨h1, h2⟩ := h hm hc
    exact ⟨h1, h2.trans (Nat.le_add_right _ _)⟩
  case isTrue hmount =>
    cases e with
    | qrSet =>
        intro hm hc
        rcases Option.eq_none_or_eq_some s.generateProjectLogIntervalCb with hcb | ⟨i, hcb⟩
        · have hu : (generateQrSuccessEffect
              (qrSetState s)).generateProjectLogIntervalCb = none := by
            rw [generateQrSuccessEffect_cb, qrSetState_cb]
            exact hcb
          obtain ⟨h1, h2⟩ := h hmount hcb
          rcases generateProjectLogEffect_dichotomy _ hu with ⟨_, ht, hp, ha⟩ | hsome
          · refine ⟨?_, ?_⟩
            · rw [ht, generateQrSuccessEffect_timers, qrSetState_timers]
              exact h1
            · have hple := generateQrSuccessEffect_pending_le (qrSetState s)
              have ha2 := generateQrSuccessEffect_applied (qrSetState s)
              rw [hp, ha, ha2, qrSetState_applied]
              rw [qrSetState_pending] at hple
              have hq : qrSetContribution PollEvent.qrSet = 1 := rfl
              rw [hq]
              omega
          · rw [hsome] at hc
            exact Option.noConfusion hc
        · exfalso
          have hu : (generateQrSuccessEffect
              (qrSetState s)).generateProjectLogIntervalCb = some i := by
            rw [generateQrSuccessEffect_cb, qrSetState_cb]
            exact hcb
          have := generateProjectLogEffect_cb_some _ i hu
          rw [this] at hc
          exact Option.noConfusion hc
    | logResponse status =>
        dsimp only
        split
        case isTrue =>
          intro hm hc
          obtain ⟨h1, h2⟩ := h hm hc
          exact ⟨h1, h2.trans (Nat.le_add_right _ _)⟩
        case isFalse hpend =>
          intro hm hc
          rcases Option.eq_none_or_eq_some s.generateProjectLogIntervalCb with hcb | ⟨i, hcb⟩
          · have hu : (logUpdateState s status).generateProjectLogIntervalCb = none := by
              rw [logUpdateState_cb]
              exact hcb
            obtain ⟨h1, h2⟩ := h hmount hcb
            rcases generateProjectLogEffect_dichotomy _ hu with ⟨_, ht, hp, ha⟩ | hsome
            · refine ⟨?_, ?_⟩
              · rw [ht, logUpdateState_timers]
                exact h1
              · rw [hp, ha, logUpdateState_pending, logUpdateState_applied]
                have hq : qrSetContribution (PollEvent.logResponse status) = 0 := rfl
                rw [hq]
                omega
            · rw [hsome] at hc
              exact Option.noConfusion hc
          · exfalso
            have hu : (logUpdateState s status).generateProjectLogIntervalCb = some i := by
              rw [logUpdateState_cb]
              exact hcb
            have := generateProjectLogEffect_cb_some _ i hu
            rw [this] at hc
            exact Option.noConfusion hc
    | intervalTick =>
        dsimp only
        split
        case isTrue =>
          intro hm hc
          obtain ⟨h1, h2⟩ := h hm hc
          exact ⟨h1, h2.trans (Nat.le_add_right _ _)⟩
        case isFalse htim =>
          intro hm hc
          exact absurd (h hmount hc).1 htim
    | unmount =>
        intro hm
        rw [unmountCleanup_mounted] at hm
        exact absurd hm (by decide)

theorem pollRun_request_bound (evs : List PollEvent) (s : SplitTasksPollState) (n : Nat)
    (h : s.mounted = true → s.generateProjectLogIntervalCb = none →
      s.timers = [] ∧ s.pendingRequests + s.appliedLogResponses ≤ n) :
    (pollRun s evs).mounted = true → (pollRun s evs).generateProjectLogIntervalCb = none →
      (pollRun s evs).timers = [] ∧
      (pollRun s evs).pendingRequests + (pollRun s evs).appliedLogResponses ≤
        n + countQrSet evs := by
  induction evs generalizing s n with
  | nil =>
      intro hm hc
      obtain ⟨h1, h2⟩ := h hm hc
      exact ⟨h1, by simpa [countQrSet] using h2⟩
  | cons e evs ih =>
      intro hm hc
      have hstep := pollStep_request_bound s e n h
      have hrest := ih (pollStep s e) (n + qrSetContribution e) hstep hm hc
      refine ⟨hrest.1, hrest.2.trans ?_⟩
      have hcount : countQrSet (e :: evs) = qrSetContribution e + countQrSet evs := by
        unfold countQrSet qrSetContribution
        rw [List.count_cons]
        by_cases he : e = PollEvent.qrSet
        · subst he
          simp [Nat.add_comm]
        · simp [he]
      omega

theorem pollRun_init_request_bound (evs : List PollEvent) :
    (pollRun pollInit evs).mounted = true →
      (pollRun pollInit evs).generateProjectLogIntervalCb = none →
      (pollRun pollInit evs).timers = [] ∧
      (pollRun pollInit evs).pendingRequests + (pollRun pollInit evs).appliedLogResponses ≤
        countQrSet evs := by
  intro hm hc
  have := pollRun_request_bound evs pollInit 0 (fun _ _ => ⟨rfl, Nat.le_refl 0⟩) hm hc
  simpa using this

theorem clearIntervalCb_timers_nil (s : SplitTasksPollState) (ht : s.timers = []) :
    (clearIntervalCb s).timers = [] := by
  unfold clearIntervalCb
  cases s.generateProjectLogIntervalCb <;> simp [ht]

theorem pollQuiet_pollStep (s : SplitTasksPollState) (e : PollEvent) (h : PollQuiet s)
    (he : e ≠ PollEvent.qrSet) : PollQuiet (pollStep s e) := by
  obtain ⟨ht, hp⟩ := h
  unfold pollStep
  split
  case isFalse => exact ⟨ht, hp⟩
  case isTrue hmount =>
    cases e with
    | qrSet => exact absurd rfl he
    | logResponse status =>
        dsimp only
        split
        case isTrue => exact ⟨ht, hp⟩
        case isFalse hpend =>
          rcases Option.eq_none_or_eq_some s.generateProjectLogIntervalCb with hcb | ⟨i, hcb⟩
          · exact absurd (hp hmount hcb) hpend
          · have hu : (logUpdateState s status).generateProjectLogIntervalCb = some i := by
              rw [logUpdateState_cb]
              exact hcb
            constructor
            · apply generateProjectLogEffect_timers_nil
              · rw [logUpdateState_timers]
                exact ht
              · rw [hu]
                exact fun hcontra => Option.noConfusion hcontra
            · intro hm hc
              have hsome := generateProjectLogEffect_cb_some _ i hu
              rw [hsome] at hc
              exact Option.noConfusion hc
    | intervalTick =>
        exact ⟨ht, hp⟩
    | unmount =>
        constructor
        · rw [unmountCleanup_timers]
          exact clearIntervalCb_timers_nil s ht
        · intro hm
          rw [unmountCleanup_mounted] at hm
          exact absurd hm (by decide)

theorem pollQuiet_pollRun (evs : List PollEvent) (s : SplitTasksPollState) (h : PollQuiet s)
    (he : ∀ e ∈ evs, e ≠ PollEvent.qrSet) : PollQuiet (pollRun s evs) := by
  induction evs generalizing s with
  | nil => exact h
  | cons e evs ih =>
      exact ih (pollStep s e) (pollQuiet_pollStep s e h (he e (List.mem_cons_self e evs)))
        (fun x hx => he x (List.mem_cons_of_mem e hx))

theorem clearIntervalCb_clearCalls (s : SplitTasksPollState) :
    (clearIntervalCb s).clearIntervalCalls = s.clearIntervalCalls + 1 := rfl

theorem clearIntervalCb_pending (s : SplitTasksPollState) :
    (clearIntervalCb s).pendingRequests = s.pendingRequests := rfl

theorem generateProjectLogEffect_terminal (u : SplitTasksPollState)
    (hqr : u.generateQrSuccess = true)
    (hst : u.generateProjectLogStatus = some "SUCCESS" ∨
      u.generateProjectLogStatus = some "FAILED")
    (hg : GoodTimers u) :
    (generateProjectLogEffect u).timers = [] ∧
    (generateProjectLogEffect u).clearIntervalCalls = u.clearIntervalCalls + 1 ∧
    (generateProjectLogEffect u).generateProjectLogIntervalCb =
      u.generateProjectLogIntervalCb ∧
    (generateProjectLogEffect u).pendingRequests = u.pendingRequests ∧
    (generateProjectLogEffect u).mounted = u.mounted := by
  have hct := clearIntervalCb_timers_of_goodTimers u hg
  unfold generateProjectLogEffect
  dsimp only
  rcases hst with hst | hst <;>
    (repeat' split) <;>
    simp_all [clearIntervalCb_cb, clearIntervalCb_clearCalls, clearIntervalCb_pending,
      clearIntervalCb_mounted]

theorem pollStep_terminal (s : SplitTasksPollState) (status : String)
    (hterm : isTerminalStatus status) (hm : s.mounted = true)
    (hqr : s.generateQrSuccess = true) (hpend : s.pendingRequests ≠ 0)
    (hg : GoodTimers s) :
    (pollStep s (PollEvent.logResponse status)).clearIntervalCalls =
      s.clearIntervalCalls + 1 ∧
    (pollStep s (PollEvent.logResponse status)).timers = [] ∧
    (pollStep s (PollEvent.logResponse status)).mounted = true ∧
    (pollStep s (PollEvent.logResponse status)).generateProjectLogIntervalCb =
      s.generateProjectLogIntervalCb ∧
    (pollStep s (PollEvent.logResponse status)).pendingRequests = s.pendingRequests - 1 := by
  have hu : GoodTimers (logUpdateState s status) := hg
  have hqr2 : (logUpdateState s status).generateQrSuccess = true := hqr
  have hsx : (logUpdateState s status).generateProjectLogStatus = some status := rfl
  have hst : (logUpdateState s status).generateProjectLogStatus = some "SUCCESS" ∨
      (logUpdateState s status).generateProjectLogStatus = some "FAILED" := by
    rcases hterm with hs | hs
    · exact Or.inl (by rw [hsx, hs])
    · exact Or.inr (by rw [hsx, hs])
  obtain ⟨t1, t2, t3, t4, t5⟩ :=
    generateProjectLogEffect_terminal (logUpdateState s status) hqr2 hst hu
  unfold pollStep
  rw [if_pos hm]
  dsimp only
  rw [if_neg hpend]
  refine ⟨?_, t1, ?_, ?_, ?_⟩
  · rw [t2]
    rfl
  · rw [t5]
    exact hm
  · rw [t3, logUpdateState_cb]
  · rw [t4, logUpdateState_pending]

theorem pollStep_of_unmounted (s : SplitTasksPollState) (e : PollEvent)
    (hm : s.mounted = false) : pollStep s e = s := by
  unfold pollStep
  rw [if_neg]
  simp [hm]

theorem pollRun_of_unmounted (evs : List PollEvent) (s : SplitTasksPollState)
    (hm : s.mounted = false) : pollRun s evs = s := by
  induction evs with
  | nil => rfl
  | cons e evs ih =>
      show pollRun (pollStep s e) evs = s
      rw [pollStep_of_unmounted s e hm]
      exact ih

theorem pollStep_dead_timers (s : SplitTasksPollState) (e : PollEvent)
    (hd : s.mounted = false → s.timers = []) (hg : GoodTimers s) :
    (pollStep s e).mounted = false → (pollStep s e).timers = [] := by
  by_cases hm : s.mounted = true
  · unfold pollStep
    rw [if_pos hm]
    cases e with
    | qrSet =>
        intro hmf
        rw [generateProjectLogEffect_mounted, generateQrSuccessEffect_mounted] at hmf
        exact absurd hm (by rw [show (qrSetState s).mounted = s.mounted from rfl] at hmf; simp [hmf])
    | logResponse status =>
        dsimp only
        split
        · intro hmf
          rw [hmf] at hm
          exact absurd hm (by decide)
        · intro hmf
          rw [generateProjectLogEffect_mounted] at hmf
          rw [show (logUpdateState s status).mounted = s.mounted from rfl] at hmf
          rw [hmf] at hm
          exact absurd hm (by decide)
    | intervalTick =>
        dsimp only
        split
        · intro hmf
          rw [hmf] at hm
          exact absurd hm (by decide)
        · intro hmf
          rw [show ({ s with pendingRequests := s.pendingRequests + 1 } :
            SplitTasksPollState).mounted = s.mounted from rfl] at hmf
          rw [hmf] at hm
          exact absurd hm (by decide)
    | unmount =>
        intro _
        rw [unmountCleanup_timers]
        exact clearIntervalCb_timers_of_goodTimers s hg
  · have hmf : s.mounted = false := by
      cases hx : s.mounted
      · rfl
      · exact absurd hx hm
    rw [pollStep_of_unmounted s e hmf]
    exact fun _ => hd hmf

theorem pollRun_dead_timers (evs : List PollEvent) (s : SplitTasksPollState)
    (hd : s.mounted = false → s.timers = []) (hg : GoodTimers s) :
    (pollRun s evs).mounted = false → (pollRun s evs).timers = [] := by
  induction evs generalizing s with
  | nil => exact hd
  | cons e evs ih =>
      exact ih (pollStep s e) (pollStep_dead_timers s e hd hg) (goodTimers_pollStep s e hg)

theorem generateProjectLogEffect_keeps_timers (u : SplitTasksPollState)
    (h1 : u.generateProjectLogStatus ≠ some "SUCCESS")
    (h2 : u.generateProjectLogStatus ≠ some "FAILED") :
    ∀ t ∈ u.timers, t ∈ (generateProjectLogEffect u).timers := by
  unfold generateProjectLogEffect
  dsimp only
  repeat' split
  all_goals intro t htm
  all_goals simp_all

theorem pollStep_keeps_timers_nonterminal (s : SplitTasksPollState) (status : String)
    (h1 : status ≠ "SUCCESS") (h2 : status ≠ "FAILED") :
    ∀ t ∈ s.timers, t ∈ (pollStep s (PollEvent.logResponse status)).timers := by
  intro t htm
  by_cases hm : s.mounted = true
  · unfold pollStep
    rw [if_pos hm]
    dsimp only
    split
    · exact htm
    · apply generateProjectLogEffect_keeps_timers
      · exact fun hcon => h1 (Option.some.inj hcon)
      · exact fun hcon => h2 (Option.some.inj hcon)
      · exact htm
  · have hmf : s.mounted = false := by
      simp only [Bool.not_eq_true] at hm
      exact hm
    rw [pollStep_of_unmounted s _ hmf]
    exact htm

/-- C1: on the run of SplitTasks reachable from mount by any events of a
single project submission, processing a terminal GenerateProjectLog status
(SUCCESS or FAILED) executes clearInterval exactly once, leaves no live
polling timer, and no later log response or interval tick can revive one;
unmount at any point likewise leaves no live timer, forever. -/
theorem pollingInterval_cleared_on_terminal_and_unmount (evs : List PollEvent)
    (status : String) (hcount : countQrSet evs ≤ 1) (hterm : isTerminalStatus status)
    (hm : (pollRun pollInit evs).mounted = true)
    (hqr : (pollRun pollInit evs).generateQrSuccess = true)
    (hpend : (pollRun pollInit evs).pendingRequests ≠ 0) :
    (pollStep (pollRun pollInit evs) (PollEvent.logResponse status)).clearIntervalCalls =
      (pollRun pollInit evs).clearIntervalCalls + 1 ∧
    (pollStep (pollRun pollInit evs) (PollEvent.logResponse status)).timers = [] ∧
    (∀ evs2, (∀ e ∈ evs2, e ≠ PollEvent.qrSet) →
      (pollRun (pollStep (pollRun pollInit evs) (PollEvent.logResponse status))
        evs2).timers = []) ∧
    (∀ evs3 evs4, (pollRun pollInit (evs3 ++ PollEvent.unmount :: evs4)).timers = []) := by
  have hg : GoodTimers (pollRun pollInit evs) :=
    goodTimers_pollRun evs pollInit goodTimers_pollInit
  obtain ⟨t1, t2, t3, t4, t5⟩ :=
    pollStep_terminal (pollRun pollInit evs) status hterm hm hqr hpend hg
  refine ⟨t1, t2, ?_, ?_⟩
  · intro evs2 hno
    have hq : PollQuiet (pollStep (pollRun pollInit evs) (PollEvent.logResponse status)) := by
      refine ⟨t2, ?_⟩
      intro hm1 hc1
      have hc0 : (pollRun pollInit evs).generateProjectLogIntervalCb = none := by
        rw [← t4]
        exact hc1
      have hb := pollRun_init_request_bound evs hm hc0
      rw [t5]
      omega
    exact (pollQuiet_pollRun evs2 _ hq hno).1
  · intro evs3 evs4
    have hgu : GoodTimers (pollRun pollInit evs3) :=
      goodTimers_pollRun evs3 pollInit goodTimers_pollInit
    have hdeadu : (pollRun pollInit evs3).mounted = false →
        (pollRun pollInit evs3).timers = [] :=
      pollRun_dead_timers evs3 pollInit (fun hcon => absurd hcon (by decide))
        goodTimers_pollInit
    have hstep : (pollStep (pollRun pollInit evs3) PollEvent.unmount).mounted = false ∧
        (pollStep (pollRun pollInit evs3) PollEvent.unmount).timers = [] := by
      by_cases hmu : (pollRun pollInit evs3).mounted = true
      · unfold pollStep
        rw [if_pos hmu]
        refine ⟨unmountCleanup_mounted _, ?_⟩
        rw [unmountCleanup_timers]
        exact clearIntervalCb_timers_of_goodTimers _ hgu
      · have hmf : (pollRun pollInit evs3).mounted = false := by
          simp only [Bool.not_eq_true] at hmu
          exact hmu
        rw [pollStep_of_unmounted _ _ hmf]
        exact ⟨hmf, hdeadu hmf⟩
    have hfold : pollRun pollInit (evs3 ++ PollEvent.unmount :: evs4) =
        pollRun (pollStep (pollRun pollInit evs3) PollEvent.unmount) evs4 := by
      unfold pollRun
      rw [List.foldl_append]
      rfl
    rw [hfold, pollRun_of_unmounted evs4 _ hstep.1]
    exact hstep.2

/-- C1 witness: a single submission whose first log response is already
FAILED - the terminal transition runs clearInterval once and leaves no
timer. -/
theorem pollingInterval_cleared_on_terminal_and_unmount_witness :
    countQrSet [PollEvent.qrSet] ≤ 1 ∧
      (pollStep (pollRun pollInit [PollEvent.qrSet])
        (PollEvent.logResponse "FAILED")).clearIntervalCalls =
        (pollRun pollInit [PollEvent.qrSet]).clearIntervalCalls + 1 ∧
      (pollStep (pollRun pollInit [PollEvent.qrSet])
        (PollEvent.logResponse "FAILED")).timers = [] :=
  ⟨by decide,
    (pollingInterval_cleared_on_terminal_and_unmount [PollEvent.qrSet] "FAILED" (by decide)
      (Or.inr rfl) (by decide) (by decide) (by decide)).1,
    (pollingInterval_cleared_on_terminal_and_unmount [PollEvent.qrSet] "FAILED" (by decide)
      (Or.inr rfl) (by decide) (by decide) (by decide)).2.1⟩

/-- C6: every live timer of the polling machinery was created with the fixed
5000 ms delay, at most one such interval timer exists at any reachable state,
a non-terminal (e.g. PENDING) log response never cancels a live timer, and a
tick of the live timer dispatches exactly one further log request. -/
theorem polling_fixed_five_second_interval (evs : List PollEvent) :
    (∀ t ∈ (pollRun pollInit evs).timers, t.delay = 5000) ∧
    (pollRun pollInit evs).timers.length ≤ 1 ∧
    (∀ status, status ≠ "SUCCESS" → status ≠ "FAILED" →
      ∀ t ∈ (pollRun pollInit evs).timers,
        t ∈ (pollStep (pollRun pollInit evs) (PollEvent.logResponse status)).timers) ∧
    ((pollRun pollInit evs).timers ≠ [] → (pollRun pollInit evs).mounted = true →
      (pollStep (pollRun pollInit evs) PollEvent.intervalTick).pendingRequests =
        (pollRun pollInit evs).pendingRequests + 1) := by
  have hg : GoodTimers (pollRun pollInit evs) :=
    goodTimers_pollRun evs pollInit goodTimers_pollInit
  have htshape : (pollRun pollInit evs).timers = [] ∨
      ∃ i, (pollRun pollInit evs).timers = [⟨i, 5000⟩] := by
    unfold GoodTimers at hg
    cases hcb : (pollRun pollInit evs).generateProjectLogIntervalCb with
    | none =>
        rw [hcb] at hg
        exact Or.inl hg
    | some i =>
        rw [hcb] at hg
        rcases hg with hg | hg
        · exact Or.inl hg
        · exact Or.inr ⟨i, hg⟩
  refine ⟨?_, ?_, ?_, ?_⟩
  · rcases htshape with ht | ⟨i, ht⟩ <;> rw [ht] <;> intro t htm <;> simp_all
  · rcases htshape with ht | ⟨i, ht⟩ <;> rw [ht] <;> simp
  · intro status h1 h2
    exact pollStep_keeps_timers_nonterminal (pollRun pollInit evs) status h1 h2
  · intro htne hmo
    unfold pollStep
    rw [if_pos hmo]
    dsimp only
    rw [if_neg htne]

/-- C6 witness: after a submission whose first response is PENDING, the single
live timer has delay 5000 and a further PENDING response leaves it running. -/
theorem polling_fixed_five_second_interval_witness :
    (pollRun pollInit [PollEvent.qrSet, PollEvent.logResponse "PENDING"]).timers =
      [⟨0, 5000⟩] ∧
    (⟨0, 5000⟩ : IntervalTimer) ∈
      (pollStep (pollRun pollInit [PollEvent.qrSet, PollEvent.logResponse "PENDING"])
        (PollEvent.logResponse "PENDING")).timers :=
  ⟨by decide,
    (polling_fixed_five_second_interval
      [PollEvent.qrSet, PollEvent.logResponse "PENDING"]).2.2.1
      "PENDING" (by decide) (by decide) ⟨0, 5000⟩ (by decide)⟩
